import Mathlib

/-!
Shallow embedding of the `reinforced_puzzles` repository:
- `src/examples/autoregressive/autoreg_model.py` (class
  `CombinedAutoregressiveActionModel`): a feed-forward autoregressive
  action model with optional 0-1 action masks, modelled over exact reals
  (one observation row at a time; a torch 1-D tensor becomes `List ℝ`).
- `src/D_train.py` (class `RunRay`): the trainer wrapper, modelled as
  pure transition functions over the sentinel-file content and as an
  event trace for the per-seed training loop.
-/

namespace ReinforcedPuzzles

/-! ### Gymnasium action spaces (shape level)

Only the structure that `CombinedAutoregressiveActionModel.__init__`
inspects is modelled: whether the space is a `Tuple`, whether each member
is `Discrete`, and each member's cardinality `n`. -/

inductive GymSpace where
  | discrete (n : Nat)
  | box (dims : Nat)
  | dict
  | tuple (spaces : List GymSpace)
deriving Repr

def GymSpace.isDiscrete : GymSpace → Bool
  | .discrete _ => true
  | _ => false

/-- The sizes fixed by `__init__` once the action-space check passes:
`self.num_actions = action_space[0].n` and
`self.hidden_layer_size = num_outputs // 2`. -/
structure ModelConfig where
  num_actions : Nat
  hidden_layer_size : Nat
  num_outputs : Nat
deriving DecidableEq, Repr

/-- `CombinedAutoregressiveActionModel.__init__`, shape level
(`autoreg_model.py` lines 41-91).  The Python code raises `ValueError`
unless the action space is a `Tuple` whose members are all `Discrete`;
it never checks the arity.  It then reads `action_space[0].n`, which on
an empty tuple raises `IndexError`. -/
def initModel : GymSpace → Nat → Except String ModelConfig
  | .tuple spaces, num_outputs =>
      if spaces.all GymSpace.isDiscrete then
        match spaces with
        | .discrete n :: _ =>
            .ok { num_actions := n
                  hidden_layer_size := num_outputs / 2
                  num_outputs := num_outputs }
        | _ => .error "IndexError: tuple index out of range"
      else
        .error "ValueError: This model only supports a tuple of discrete action spaces"
  | _, _ =>
      .error "ValueError: This model only supports a tuple of discrete action spaces"

/-! ### The trainer wrapper `RunRay` (`D_train.py`) -/

/-- What `setup_n_fit` asks the tuning engine to do: either
`tune.Tuner.restore(path, "PPO", resume_unfinished=True,
resume_errored=False, restart_errored=False)` or a fresh
`tune.Tuner("PPO", ...)` with the stop/checkpoint configuration from
`D_train.py` lines 102-113. -/
inductive EngineAction where
  | restore (path : String) (trainable : String)
      (resume_unfinished resume_errored restart_errored : Bool)
  | freshRun (name : String) (stop_training_iteration : Nat)
      (checkpoint_frequency : Nat) (checkpoint_at_end : Bool)
      (num_to_keep : Nat)
deriving DecidableEq, Repr

/-- Result of one `setup_n_fit` call: the engine call made (or the Python
exception raised before any call), whether `tuner.fit()` was reached, and
the sentinel file content afterwards (`none` = file absent). -/
structure SetupOutcome where
  engine : Except String EngineAction
  fitRan : Bool
  sentinelAfter : Option String
deriving Repr

/-- Python `str.strip()`: drop leading and trailing whitespace. -/
def pyStrip (s : String) : String :=
  ⟨((s.data.dropWhile Char.isWhitespace).reverse.dropWhile Char.isWhitespace).reverse⟩

/-- `RunRay.setup_n_fit` (`D_train.py` lines 85-116), as a function of the
sentinel-file content (`none` = `os.path.exists` is false).  Faithful to
the Python control flow: when the file exists but its stripped content is
not `"interrupted"`, the inner `if` assigns nothing to `tuner`, the file
is still removed (the `os.remove` sits inside the outer `if`), and the
subsequent `tuner.fit()` raises `UnboundLocalError`. -/
def setup_n_fit (sentinel : Option String) (experiment_path : String)
    (train_iteration : Nat) : SetupOutcome :=
  match sentinel with
  | some content =>
      if pyStrip content = "interrupted" then
        { engine := .ok (.restore experiment_path "PPO" true false false)
          fitRan := true
          sentinelAfter := none }
      else
        { engine := .error "UnboundLocalError: local variable tuner referenced before assignment"
          fitRan := false
          sentinelAfter := none }
  | none =>
      { engine := .ok (.freshRun experiment_path train_iteration 50 true 3)
        fitRan := true
        sentinelAfter := none }

/-- One observable side effect of `RunRay.train` / `RunRay.set_seeds`. -/
inductive TrainEvent where
  | seedTorch (s : Int)
  | seedCuda (s : Int)
  | seedNumpy (s : Int)
  | seedPython (s : Int)
  | fitAndGetBest (s : Int) (metric : String) (mode : String)
  | rayShutdown
deriving DecidableEq, Repr

/-- `RunRay.set_seeds` (`D_train.py` lines 169-173): torch, torch.cuda,
numpy and python `random` are reseeded, in that order. -/
def set_seeds (s : Int) : List TrainEvent :=
  [.seedTorch s, .seedCuda s, .seedNumpy s, .seedPython s]

/-- An entry of the best-checkpoint JSON file. -/
structure ResultEntry where
  seed : Int
  best_checkpoint : Option String
deriving DecidableEq, Repr

/-- `RunRay.save_results` (`D_train.py` lines 146-163): appends
`{"seed": seed, "best_checkpoint": path-or-null}` to the JSON file
(`path_checkpoint if path_checkpoint else None` maps the empty string to
`null`). -/
def save_results (path_checkpoint : String) (s : Int)
    (jsonFile : List ResultEntry) : List ResultEntry :=
  jsonFile ++ [{ seed := s
                 best_checkpoint :=
                   if path_checkpoint = "" then none else some path_checkpoint }]

/-- `RunRay.train` (`D_train.py` lines 124-140): the per-seed loop.  For
each seed it calls `set_seeds` and then `setup_n_fit` (whose tail calls
`tuner.fit()` and `result_grid.get_best_result(metric="episode_reward_mean",
mode="max")`); the `save_results` call on line 135 is commented out, so
the results file (second component) is never written.  `ray.shutdown()`
runs after the loop. -/
def train : List Int → List TrainEvent × List ResultEntry
  | [] => ([.rayShutdown], [])
  | s :: rest =>
      let (evs, file) := train rest
      (set_seeds s ++ [.fitAndGetBest s "episode_reward_mean" "max"] ++ evs, file)

/-! ### The autoregressive masked model (`autoreg_model.py`), numerics -/

noncomputable section

/-- Dot product of two equal-length real vectors. -/
def dot (xs ys : List ℝ) : ℝ := (List.zipWith (· * ·) xs ys).sum

/-- A fully-connected layer (`SlimFC` without its activation): one output
per (row, bias) pair.  Activations are applied at the call sites, where
`__init__` fixes them (`Tanh` for `context_layer`, `ReLU` for
`a2_hidden`, none for the logit and value heads). -/
structure Linear where
  weight : List (List ℝ)
  bias : List ℝ

def Linear.apply (l : Linear) (x : List ℝ) : List ℝ :=
  List.zipWith (fun row b => dot row x + b) l.weight l.bias

/-- `nn.ReLU`. -/
def relu (x : ℝ) : ℝ := max 0 x

/-- `torch.clamp(torch.log(mask), min=-1e10)` on one mask entry.  In IEEE
arithmetic `log 0 = -inf` and `clamp(-inf, min=-1e10) = -1e10`; for
`m > 0` the clamp is `max (log m) (-1e10)`.  (Negative entries would give
`NaN` in torch and are outside the modelled 0-1 mask domain.) -/
def clampLog (m : ℝ) : ℝ := if m = 0 then -1e10 else max (Real.log m) (-1e10)

/-- The masking step of `compute_action_logits`: with a mask present the
clamped log-mask is added elementwise to the logits, otherwise the logits
pass through unchanged. -/
def applyMask (logits : List ℝ) : Option (List ℝ) → List ℝ
  | none => logits
  | some mask => List.zipWith (· + ·) logits (mask.map clampLog)

/-- The value `self.masks` takes after `forward`: a dict with keys
`"mask_a1"` and `"mask_a2"`. -/
structure Masks where
  mask_a1 : Option (List ℝ)
  mask_a2 : Option (List ℝ)

/-- The mutable state of a `CombinedAutoregressiveActionModel` instance:
the five `SlimFC` layers built by `__init__` plus the cached
`self._context` and `self.masks`, both initialised to `None`. -/
structure Model where
  context_layer : Linear
  value_branch : Linear
  a1_logits : Linear
  a2_hidden : Linear
  a2_logits : Linear
  cached_context : Option (List ℝ)
  masks : Option Masks

/-- The state right after `__init__` (`autoreg_model.py` lines 90-91):
`self._context = None`, `self.masks = None`. -/
def initState (cl vb a1L a2H a2L : Linear) : Model :=
  { context_layer := cl, value_branch := vb, a1_logits := a1L
    a2_hidden := a2H, a2_logits := a2L
    cached_context := none, masks := none }

/-- The `input_dict` handed to `forward`: the observation plus whatever
mask entries the observation dictionary may carry (which the live code
ignores: the extraction block on lines 111-116 is commented out). -/
structure InputDict where
  obs : List ℝ
  obs_mask_a1 : Option (List ℝ)
  obs_mask_a2 : Option (List ℝ)

/-- `forward` (`autoreg_model.py` lines 93-131): encodes the observation
through `context_layer` (tanh activation), caches it, sets
`self.masks = {"mask_a1": None, "mask_a2": None}` unconditionally, and
returns the context together with the untouched RNN state. -/
def forward (m : Model) (input_dict : InputDict) (state : List (List ℝ)) :
    (List ℝ × List (List ℝ)) × Model :=
  let ctx := (m.context_layer.apply input_dict.obs).map Real.tanh
  ((ctx, state),
   { m with cached_context := some ctx, masks := some ⟨none, none⟩ })

/-- `compute_action_logits` (`autoreg_model.py` lines 133-155).  Reading
`self.masks["mask_a1"]` while `self.masks` is still `None` raises a
`TypeError` in Python; otherwise: a1 logits from the context input, mask
a1 if present, a2 hidden layer (ReLU) from the a1 input, a2 logits, mask
a2 if present. -/
def compute_action_logits (m : Model) (ctx_input a1_input : List ℝ) :
    Except String (List ℝ × List ℝ) :=
  match m.masks with
  | none => .error "TypeError: NoneType object is not subscriptable"
  | some mk =>
      let a1l := applyMask (m.a1_logits.apply ctx_input) mk.mask_a1
      let a2_hidden_out := (m.a2_hidden.apply a1_input).map relu
      let a2l := applyMask (m.a2_logits.apply a2_hidden_out) mk.mask_a2
      .ok (a1l, a2l)

/-- `value_function` (`autoreg_model.py` lines 157-164):
`value_branch(self._context)` flattened; applying the layer to a `None`
context raises a `TypeError` in Python. -/
def value_function (m : Model) : Except String (List ℝ) :=
  match m.cached_context with
  | none => .error "TypeError: linear layer applied to None context"
  | some c => .ok (m.value_branch.apply c)

/-- Softmax probability of index `i` of a logit vector. -/
def softmax (xs : List ℝ) (i : Nat) : ℝ :=
  Real.exp (xs.getD i 0) / (xs.map Real.exp).sum

/-- An `out_size × in_size` layer with all weights and biases zero, used
to instantiate theorems at concrete inputs. -/
def zeroLinear (inS outS : Nat) : Linear :=
  ⟨List.replicate outS (List.replicate inS 0), List.replicate outS 0⟩

/-- A model whose layers are all empty and whose masks are the concrete
pair `(some [1], some [0])`, used to instantiate the masking theorems. -/
def maskedEmptyModel : Model :=
  { context_layer := zeroLinear 0 0, value_branch := zeroLinear 0 0
    a1_logits := zeroLinear 0 0, a2_hidden := zeroLinear 0 0
    a2_logits := zeroLinear 0 0
    cached_context := none, masks := some ⟨some [1], some [0]⟩ }

/-- A freshly constructed model with zero layers of the shapes produced
by `initModel (.tuple [.discrete 3, .discrete 5]) 2` (obs dim 2). -/
def cexModel35 : Model :=
  { context_layer := zeroLinear 2 2, value_branch := zeroLinear 2 1
    a1_logits := zeroLinear 2 3, a2_hidden := zeroLinear 1 1
    a2_logits := zeroLinear 1 3
    cached_context := none, masks := some ⟨none, none⟩ }

end

/-! ### Helper lemmas -/

theorem clampLog_one : clampLog 1 = 0 := by
  rw [clampLog, if_neg one_ne_zero, Real.log_one]
  exact max_eq_left (by norm_num)

theorem clampLog_zero : clampLog 0 = -1e10 := by
  rw [clampLog, if_pos rfl]

theorem Linear.length_apply (l : Linear) (x : List ℝ) :
    (l.apply x).length = min l.weight.length l.bias.length := by
  simp [Linear.apply, List.length_zipWith]

theorem applyMask_length (l mask : List ℝ) :
    (applyMask l (some mask)).length = min l.length mask.length := by
  simp [applyMask, List.length_zipWith]

theorem applyMask_getD (l mask : List ℝ) (i : Nat)
    (hil : i < l.length) (him : i < mask.length) :
    (applyMask l (some mask)).getD i 0 = l.getD i 0 + clampLog (mask.getD i 0) := by
  have hz : i < (List.zipWith (· + ·) l (mask.map clampLog)).length := by
    simp [List.length_zipWith]; omega
  rw [applyMask, List.getD_eq_getElem _ _ hz, List.getElem_zipWith,
    List.getElem_map, List.getD_eq_getElem _ _ hil, List.getD_eq_getElem _ _ him]

/-! ### Claim theorems -/

/-- C3: `setup_n_fit` has three, not two, completed behaviours.  With the
sentinel absent a fresh run starts (iteration budget, checkpoint every 50
iterations, final checkpoint, keep 3) and the fit executes; with the
sentinel present and stripped content `"interrupted"` the engine restores
the run and the sentinel is deleted; but with the sentinel present and any
other content the file is deleted and no run is configured at all: the
local variable `tuner` is never assigned and `tuner.fit()` raises
`UnboundLocalError`, contradicting the claim that a new run is started in
that case. -/
theorem setup_n_fit_sentinel_behaviour :
    (setup_n_fit none "exp" 1000).engine = .ok (.freshRun "exp" 1000 50 true 3) ∧
    (setup_n_fit none "exp" 1000).fitRan = true ∧
    (setup_n_fit (some "interrupted") "exp" 1000).engine =
      .ok (.restore "exp" "PPO" true false false) ∧
    (setup_n_fit (some "interrupted") "exp" 1000).fitRan = true ∧
    (setup_n_fit (some "interrupted") "exp" 1000).sentinelAfter = none ∧
    (setup_n_fit (some "running") "exp" 1000).engine =
      .error "UnboundLocalError: local variable tuner referenced before assignment" ∧
    (setup_n_fit (some "running") "exp" 1000).fitRan = false ∧
    (setup_n_fit (some "running") "exp" 1000).sentinelAfter = none := by
  refine ⟨?_, ?_, ?_, ?_, ?_, ?_, ?_, ?_⟩ <;> rfl

/-- C5 counterexample: an action space with three discrete slots is NOT
rejected at construction time — `__init__` never checks the arity, so
`Tuple(Discrete(3), Discrete(3), Discrete(3))` constructs without error,
refuting "any ... number of slots other than two is rejected". -/
theorem initModel_three_slots_accepted :
    initModel (.tuple [.discrete 3, .discrete 3, .discrete 3]) 4 =
      .ok { num_actions := 3, hidden_layer_size := 2, num_outputs := 4 } := rfl

/-- C5 (amended): construction succeeds iff the action space is a `Tuple`
of `Discrete` spaces with at least one slot; the arity is otherwise not
checked.  (A wrong composite type or a non-discrete member raises
`ValueError`; an empty tuple passes the check and then fails with
`IndexError` reading slot 0.) -/
theorem initModel_ok_iff (s : GymSpace) (nout : Nat) :
    (∃ cfg, initModel s nout = .ok cfg) ↔
      ∃ n rest, s = .tuple (.discrete n :: rest) ∧
        rest.all GymSpace.isDiscrete = true := by
  constructor
  · intro ⟨cfg, hcfg⟩
    match s with
    | .discrete n => simp [initModel] at hcfg
    | .box d => simp [initModel] at hcfg
    | .dict => simp [initModel] at hcfg
    | .tuple [] => simp [initModel] at hcfg
    | .tuple (.discrete n :: tl) =>
        refine ⟨n, tl, rfl, ?_⟩
        by_contra hall
        simp [initModel, GymSpace.isDiscrete, Bool.eq_false_iff.mpr hall] at hcfg
    | .tuple (.box d :: tl) => simp [initModel, GymSpace.isDiscrete] at hcfg
    | .tuple (.dict :: tl) => simp [initModel, GymSpace.isDiscrete] at hcfg
    | .tuple (.tuple inner :: tl) => simp [initModel, GymSpace.isDiscrete] at hcfg
  · rintro ⟨n, rest, rfl, hall⟩
    refine ⟨⟨n, nout / 2, nout⟩, ?_⟩
    simp [initModel, GymSpace.isDiscrete, hall]

/-- C6 counterexample: `RunRay.train` over the seed list `[7]` appends
nothing to the results file — the `save_results` call is commented out —
so no entry `{"seed": 7, ...}` is ever written, refuting the claim that
an entry is appended for every seed. -/
theorem train_results_file_stays_empty :
    (train [7]).2 = [] ∧ ¬ ∃ r ∈ (train [7]).2, r.seed = 7 := by
  refine ⟨rfl, ?_⟩
  rintro ⟨r, hr, -⟩
  simp [train] at hr

/-- C6 (amended): for every seed in the configured list, in list order,
`train` reseeds torch, torch.cuda, numpy and python `random`, then runs
one full fit extracting the best result by maximum `episode_reward_mean`;
but the `save_results` call is disabled (commented out), so the results
file receives no entries at all. -/
theorem train_trace (seeds : List Int) :
    train seeds =
      (seeds.flatMap (fun s =>
          [.seedTorch s, .seedCuda s, .seedNumpy s, .seedPython s,
           .fitAndGetBest s "episode_reward_mean" "max"]) ++ [.rayShutdown],
       []) := by
  induction seeds with
  | nil => rfl
  | cons s rest ih => simp [train, ih, set_seeds, List.flatMap_cons]

/-- C7: when the stored mask for a slot is `None`, `compute_action_logits`
skips the masking step for that slot (a no-op, not a uniform mask): with
both masks `None` the returned pair is exactly the raw a1 linear head
over the context input and the raw a2 linear head over the ReLU-activated
hidden layer of the a1 input, and with only one slot's mask `None` that
slot's logits stay raw while the other slot is masked as usual. -/
theorem compute_action_logits_no_mask (cl vb a1L a2H a2L : Linear)
    (c : Option (List ℝ)) (ctx a1in mA mB : List ℝ) :
    compute_action_logits
        { context_layer := cl, value_branch := vb, a1_logits := a1L
          a2_hidden := a2H, a2_logits := a2L
          cached_context := c, masks := some ⟨none, none⟩ } ctx a1in =
      .ok (a1L.apply ctx, a2L.apply ((a2H.apply a1in).map relu)) ∧
    compute_action_logits
        { context_layer := cl, value_branch := vb, a1_logits := a1L
          a2_hidden := a2H, a2_logits := a2L
          cached_context := c, masks := some ⟨none, some mB⟩ } ctx a1in =
      .ok (a1L.apply ctx,
           List.zipWith (· + ·) (a2L.apply ((a2H.apply a1in).map relu))
             (mB.map clampLog)) ∧
    compute_action_logits
        { context_layer := cl, value_branch := vb, a1_logits := a1L
          a2_hidden := a2H, a2_logits := a2L
          cached_context := c, masks := some ⟨some mA, none⟩ } ctx a1in =
      .ok (List.zipWith (· + ·) (a1L.apply ctx) (mA.map clampLog),
           a2L.apply ((a2H.apply a1in).map relu)) :=
  ⟨rfl, rfl, rfl⟩

/-- C9: after every `forward` call the stored masks are both `None`
regardless of the observation dictionary's content (the mask-extraction
block is commented out), so every subsequent `compute_action_logits` call
returns the raw unmasked logits for both action slots. -/
theorem forward_disables_masks (m : Model) (d : InputDict)
    (st : List (List ℝ)) (ctx a1in : List ℝ) :
    ((forward m d st).2).masks = some ⟨none, none⟩ ∧
    compute_action_logits (forward m d st).2 ctx a1in =
      .ok (m.a1_logits.apply ctx,
           m.a2_logits.apply ((m.a2_hidden.apply a1in).map relu)) :=
  ⟨rfl, rfl⟩

/-- C10: on a freshly constructed model (`self._context = None`,
`self.masks = None`) both `compute_action_logits` and `value_function`
fail; after at least one `forward` call both error branches are
unreachable and the operations return well-formed values. -/
theorem fresh_model_fails_then_works (cl vb a1L a2H a2L : Linear)
    (m : Model) (d : InputDict) (st : List (List ℝ)) (ctx a1in : List ℝ) :
    compute_action_logits (initState cl vb a1L a2H a2L) ctx a1in =
      .error "TypeError: NoneType object is not subscriptable" ∧
    value_function (initState cl vb a1L a2H a2L) =
      .error "TypeError: linear layer applied to None context" ∧
    (∃ p, compute_action_logits (forward m d st).2 ctx a1in = .ok p) ∧
    (∃ v, value_function (forward m d st).2 = .ok v) :=
  ⟨rfl, rfl, ⟨_, rfl⟩, ⟨_, rfl⟩⟩

/-- C1: for every supplied mask vector, the logits returned for each
action slot are the raw linear-head logits plus
`clamp(log(mask), min=-1e10)` elementwise (a1 masked over the context
input, a2 masked over the a1 input path), and the addend is exactly `0`
at every mask-1 entry and exactly `-1e10` at every mask-0 entry. -/
theorem masked_logits_formula (m : Model) (mA mB ctx a1in l1 l2 : List ℝ)
    (hm : m.masks = some ⟨some mA, some mB⟩)
    (h : compute_action_logits m ctx a1in = .ok (l1, l2)) :
    l1 = List.zipWith (· + ·) (m.a1_logits.apply ctx) (mA.map clampLog) ∧
    l2 = List.zipWith (· + ·)
        (m.a2_logits.apply ((m.a2_hidden.apply a1in).map relu))
        (mB.map clampLog) ∧
    clampLog 1 = 0 ∧ clampLog 0 = -1e10 := by
  rw [compute_action_logits, hm] at h
  simp only [applyMask, Except.ok.injEq, Prod.mk.injEq] at h
  exact ⟨h.1.symm, h.2.symm, clampLog_one, clampLog_zero⟩

/-- C1 witness: the theorem instantiated at the concrete model
`maskedEmptyModel` (masks `[1]` and `[0]`, empty layers). -/
theorem masked_logits_formula_witness :
    (maskedEmptyModel.masks = some ⟨some [1], some [0]⟩ ∧
     compute_action_logits maskedEmptyModel [] [] = .ok ([], [])) ∧
    (([] : List ℝ) = List.zipWith (· + ·) (maskedEmptyModel.a1_logits.apply [])
        ([(1 : ℝ)].map clampLog) ∧
     ([] : List ℝ) = List.zipWith (· + ·)
        (maskedEmptyModel.a2_logits.apply
          ((maskedEmptyModel.a2_hidden.apply []).map relu))
        ([(0 : ℝ)].map clampLog) ∧
     clampLog 1 = 0 ∧ clampLog 0 = -1e10) :=
  ⟨⟨rfl, rfl⟩, masked_logits_formula maskedEmptyModel [1] [0] [] [] [] [] rfl rfl⟩

/-- C8: the model computation is a pure function of its explicit inputs
and fixed learned parameters.  For any two model states with the same
layer weights: `forward` returns the same output whatever the cached
context and masks are; `compute_action_logits` agrees whenever the stored
masks agree; `value_function` agrees whenever the cached context agrees. -/
theorem model_computation_deterministic (m1 m2 : Model) (d : InputDict)
    (st : List (List ℝ)) (ctx a1in : List ℝ)
    (hcl : m1.context_layer = m2.context_layer)
    (hvb : m1.value_branch = m2.value_branch)
    (ha1 : m1.a1_logits = m2.a1_logits)
    (ha2h : m1.a2_hidden = m2.a2_hidden)
    (ha2 : m1.a2_logits = m2.a2_logits) :
    (forward m1 d st).1 = (forward m2 d st).1 ∧
    (m1.masks = m2.masks →
      compute_action_logits m1 ctx a1in = compute_action_logits m2 ctx a1in) ∧
    (m1.cached_context = m2.cached_context →
      value_function m1 = value_function m2) := by
  obtain ⟨cl1, vb1, a1L1, a2H1, a2L1, c1, k1⟩ := m1
  obtain ⟨cl2, vb2, a1L2, a2H2, a2L2, c2, k2⟩ := m2
  dsimp at hcl hvb ha1 ha2h ha2
  subst hcl; subst hvb; subst ha1; subst ha2h; subst ha2
  refine ⟨rfl, fun h => ?_, fun h => ?_⟩
  · dsimp at h
    subst h
    cases k1 with
    | none => rfl
    | some mk => rfl
  · dsimp at h
    subst h
    rfl

/-- C8 witness: the theorem instantiated at two concrete states sharing
the weights of `maskedEmptyModel` but with different cached state. -/
theorem model_computation_deterministic_witness :
    (maskedEmptyModel.context_layer =
        (forward maskedEmptyModel ⟨[], none, none⟩ []).2.context_layer ∧
     maskedEmptyModel.value_branch =
        (forward maskedEmptyModel ⟨[], none, none⟩ []).2.value_branch ∧
     maskedEmptyModel.a1_logits =
        (forward maskedEmptyModel ⟨[], none, none⟩ []).2.a1_logits ∧
     maskedEmptyModel.a2_hidden =
        (forward maskedEmptyModel ⟨[], none, none⟩ []).2.a2_hidden ∧
     maskedEmptyModel.a2_logits =
        (forward maskedEmptyModel ⟨[], none, none⟩ []).2.a2_logits) ∧
    ((forward maskedEmptyModel ⟨[], none, none⟩ []).1 =
        (forward ((forward maskedEmptyModel ⟨[], none, none⟩ []).2)
          ⟨[], none, none⟩ []).1 ∧
     (maskedEmptyModel.masks =
        (forward maskedEmptyModel ⟨[], none, none⟩ []).2.masks →
      compute_action_logits maskedEmptyModel [] [] =
        compute_action_logits (forward maskedEmptyModel ⟨[], none, none⟩ []).2 [] []) ∧
     (maskedEmptyModel.cached_context =
        (forward maskedEmptyModel ⟨[], none, none⟩ []).2.cached_context →
      value_function maskedEmptyModel =
        value_function (forward maskedEmptyModel ⟨[], none, none⟩ []).2)) :=
  ⟨⟨rfl, rfl, rfl, rfl, rfl⟩,
   model_computation_deterministic maskedEmptyModel
     (forward maskedEmptyModel ⟨[], none, none⟩ []).2
     ⟨[], none, none⟩ [] [] [] rfl rfl rfl rfl rfl⟩

/-- C4 counterexample: the action space `Tuple(Discrete(3), Discrete(5))`
is accepted at construction, yet the a2 logits vector returned by
`compute_action_logits` has 3 entries (`self.num_actions =
action_space[0].n` sizes BOTH heads), not 5 — the dimensionality does not
equal the number of discrete actions in the second slot. -/
theorem a2_logits_wrong_slot_dim :
    initModel (.tuple [.discrete 3, .discrete 5]) 2 =
      .ok { num_actions := 3, hidden_layer_size := 1, num_outputs := 2 } ∧
    ∃ l1 l2, compute_action_logits cexModel35 [0, 0] [0] = .ok (l1, l2) ∧
      l2.length = 3 ∧ l2.length ≠ 5 := by
  refine ⟨rfl, _, _, rfl, ?_, ?_⟩ <;>
    simp [cexModel35, compute_action_logits, applyMask, Linear.length_apply,
      zeroLinear]

/-- C4 (amended): for every accepted action space and every a1 input, the
a2 logits vector has dimensionality `action_space[0].n` — the number of
discrete actions in the FIRST slot — which equals the second slot's count
only when the two slots have equal cardinality. -/
theorem a2_logits_dim_first_slot (n1 nout : Nat) (rest : List GymSpace)
    (m : Model) (ctx a1in : List ℝ) (ma : Option (List ℝ))
    (hall : rest.all GymSpace.isDiscrete = true)
    (hw : m.a2_logits.weight.length = n1)
    (hb : m.a2_logits.bias.length = n1)
    (hmk : m.masks = some ⟨ma, none⟩) :
    initModel (.tuple (.discrete n1 :: rest)) nout =
      .ok { num_actions := n1, hidden_layer_size := nout / 2,
            num_outputs := nout } ∧
    ∃ l1 l2, compute_action_logits m ctx a1in = .ok (l1, l2) ∧
      l2.length = n1 := by
  constructor
  · simp [initModel, GymSpace.isDiscrete, hall]
  · simp only [compute_action_logits, hmk]
    refine ⟨_, _, rfl, ?_⟩
    simp [applyMask, Linear.length_apply, hw, hb]

/-- C4 witness: the amended theorem instantiated at `cexModel35` and the
action space `Tuple(Discrete(3), Discrete(5))`. -/
theorem a2_logits_dim_first_slot_witness :
    ([GymSpace.discrete 5].all GymSpace.isDiscrete = true ∧
     cexModel35.a2_logits.weight.length = 3 ∧
     cexModel35.a2_logits.bias.length = 3 ∧
     cexModel35.masks = some ⟨none, none⟩) ∧
    (initModel (.tuple [.discrete 3, .discrete 5]) 2 =
      .ok { num_actions := 3, hidden_layer_size := 1, num_outputs := 2 } ∧
     ∃ l1 l2, compute_action_logits cexModel35 [0, 0] [0] = .ok (l1, l2) ∧
       l2.length = 3) :=
  ⟨⟨rfl, rfl, rfl, rfl⟩,
   a2_logits_dim_first_slot 3 2 [.discrete 5] cexModel35 [0, 0] [0] none
     rfl rfl rfl rfl⟩

theorem exp_21_gt : (1e9 : ℝ) < Real.exp 21 := by
  have h2 : Real.exp 21 = Real.exp 1 ^ 21 := by
    rw [← Real.exp_nat_mul 1 21]
    norm_num
  rw [h2]
  calc (1e9 : ℝ) < 2.7182818283 ^ 21 := by norm_num
  _ < Real.exp 1 ^ 21 :=
      pow_lt_pow_left₀ Real.exp_one_gt_d9 (by norm_num) (by norm_num)

theorem exp_neg_21_lt : Real.exp (-21) < 1e-9 := by
  rw [show (-21 : ℝ) = -(21 : ℝ) by norm_num, Real.exp_neg]
  calc (Real.exp 21)⁻¹ < (1e9 : ℝ)⁻¹ := inv_strictAnti₀ (by norm_num) exp_21_gt
  _ = 1e-9 := by norm_num

/-- C2 counterexample: over unrestricted raw logits the claim fails.
With raw logits `[1e10, 0]` and mask `[0, 1]` the masked logits are
`[0, 0]` (the `-1e10` addend is cancelled by the huge raw logit), so the
softmax probability of the masked-out index 0 is `1/2`, not below
`1e-9`. -/
theorem softmax_unbounded_logit_escapes_mask :
    softmax (applyMask [(1e10 : ℝ), 0] (some [0, 1])) 0 = 1 / 2 ∧
    ¬ softmax (applyMask [(1e10 : ℝ), 0] (some [0, 1])) 0 < 1e-9 := by
  have hM : applyMask [(1e10 : ℝ), 0] (some [0, 1]) = [0, 0] := by
    norm_num [applyMask, clampLog_zero, clampLog_one]
  have h : softmax (applyMask [(1e10 : ℝ), 0] (some [0, 1])) 0 = 1 / 2 := by
    rw [hM]
    simp [softmax, Real.exp_zero]
    norm_num
  exact ⟨h, by rw [h]; norm_num⟩

/-- C2 (amended): for every 0-1 mask containing at least one `1` and
every raw logit vector with entries bounded in absolute value by `1e9`
(the `-1e10` mask addend only dominates when raw logits stay well below
`1e10`), the masked logits satisfy: softmax assigns probability below
`1e-9` to every mask-0 index, and the relative ordering of the logits at
mask-1 indices is identical to that of the raw logits there (which holds
for all raw logits, bounded or not, since the mask-1 addend is zero). -/
theorem softmax_mask_bound (l mask : List ℝ)
    (hlen : mask.length = l.length)
    (_h01 : ∀ x ∈ mask, x = 0 ∨ x = 1)
    (hone : (1 : ℝ) ∈ mask)
    (hbound : ∀ x ∈ l, |x| ≤ 1e9) :
    (∀ i, i < mask.length → mask.getD i 1 = 0 →
        softmax (applyMask l (some mask)) i < 1e-9) ∧
    (∀ i j, i < mask.length → j < mask.length →
        mask.getD i 0 = 1 → mask.getD j 0 = 1 →
        ((applyMask l (some mask)).getD i 0 ≤ (applyMask l (some mask)).getD j 0 ↔
          l.getD i 0 ≤ l.getD j 0)) := by
  constructor
  · intro i hi hmi
    have hil : i < l.length := hlen ▸ hi
    have hmi0 : mask.getD i 0 = 0 := by
      rw [List.getD_eq_getElem _ _ hi]
      rw [List.getD_eq_getElem _ _ hi] at hmi
      exact hmi
    have hx : (applyMask l (some mask)).getD i 0 = l.getD i 0 + -1e10 := by
      rw [applyMask_getD l mask i hil hi, hmi0, clampLog_zero]
    obtain ⟨k, hk, hk1⟩ := List.getElem_of_mem hone
    have hkl : k < l.length := hlen ▸ hk
    have hMk : (applyMask l (some mask)).getD k 0 = l.getD k 0 := by
      rw [applyMask_getD l mask k hkl hk, List.getD_eq_getElem _ _ hk, hk1,
        clampLog_one, add_zero]
    set M := applyMask l (some mask) with hMdef
    have hmem : Real.exp (M.getD k 0) ∈ M.map Real.exp := by
      have hkM : k < M.length := by
        rw [hMdef, applyMask_length]; omega
      rw [List.getD_eq_getElem _ _ hkM]
      exact List.mem_map_of_mem _ (List.getElem_mem hkM)
    have hnn : ∀ y ∈ M.map Real.exp, (0 : ℝ) ≤ y := by
      intro y hy
      obtain ⟨z, _, rfl⟩ := List.mem_map.mp hy
      exact (Real.exp_pos z).le
    have hsum : Real.exp (M.getD k 0) ≤ (M.map Real.exp).sum :=
      List.single_le_sum hnn _ hmem
    have hli : |l.getD i 0| ≤ 1e9 := by
      rw [List.getD_eq_getElem _ _ hil]
      exact hbound _ (List.getElem_mem hil)
    have hlk : |l.getD k 0| ≤ 1e9 := by
      rw [List.getD_eq_getElem _ _ hkl]
      exact hbound _ (List.getElem_mem hkl)
    rw [softmax]
    have h1 : Real.exp (M.getD i 0) / (M.map Real.exp).sum
        ≤ Real.exp (M.getD i 0) / Real.exp (M.getD k 0) :=
      div_le_div_of_nonneg_left (Real.exp_pos _).le (Real.exp_pos _) hsum
    have h3 : M.getD i 0 - M.getD k 0 ≤ -21 := by
      rw [hx, hMk]
      obtain ⟨hia, hib⟩ := abs_le.mp hli
      obtain ⟨hka, hkb⟩ := abs_le.mp hlk
      norm_num at hia hib hka hkb ⊢
      linarith
    have h5 : Real.exp (M.getD i 0) / Real.exp (M.getD k 0)
        ≤ Real.exp (-21) := by
      rw [← Real.exp_sub]
      exact Real.exp_le_exp.mpr h3
    exact lt_of_le_of_lt (le_trans h1 h5) exp_neg_21_lt
  · intro i j hi hj hmi hmj
    have hil : i < l.length := hlen ▸ hi
    have hjl : j < l.length := hlen ▸ hj
    rw [applyMask_getD l mask i hil hi, applyMask_getD l mask j hjl hj,
      hmi, hmj, clampLog_one, add_zero, add_zero]

/-- C2 witness: the amended theorem instantiated at raw logits `[0, 5]`
and mask `[1, 0]`. -/
theorem softmax_mask_bound_witness :
    ([(1 : ℝ), 0].length = [(0 : ℝ), 5].length ∧
     (∀ x ∈ [(1 : ℝ), 0], x = 0 ∨ x = 1) ∧
     (1 : ℝ) ∈ [(1 : ℝ), 0] ∧
     (∀ x ∈ [(0 : ℝ), 5], |x| ≤ 1e9)) ∧
    ((∀ i, i < [(1 : ℝ), 0].length → [(1 : ℝ), 0].getD i 1 = 0 →
        softmax (applyMask [(0 : ℝ), 5] (some [1, 0])) i < 1e-9) ∧
     (∀ i j, i < [(1 : ℝ), 0].length → j < [(1 : ℝ), 0].length →
        [(1 : ℝ), 0].getD i 0 = 1 → [(1 : ℝ), 0].getD j 0 = 1 →
        ((applyMask [(0 : ℝ), 5] (some [1, 0])).getD i 0 ≤
            (applyMask [(0 : ℝ), 5] (some [1, 0])).getD j 0 ↔
          [(0 : ℝ), 5].getD i 0 ≤ [(0 : ℝ), 5].getD j 0))) :=
  ⟨⟨rfl, by norm_num, by norm_num, by norm_num⟩,
   softmax_mask_bound [0, 5] [1, 0] rfl (by norm_num) (by norm_num) (by norm_num)⟩

end ReinforcedPuzzles
